import Mathlib

/-!
Verification of the agricultural risk-scoring core.

Shallow embedding of `calculateRiskScore` from
`frontend/src/components/Layout.tsx` (lines 718-820) and of its variant in the
App component (`src/unnamed/part_000`, lines 78-210), over exact rational
arithmetic (`Rat` stands for the JavaScript numbers; every constant in the
source is a short decimal, so the two agree on all values that occur).

JavaScript-specific conventions modelled explicitly:
* `table[key] || d` yields `d` when `key` is absent or its stored value is
  falsy (`0`): `jsOrDefault`.
* `urlParams.get("scenario")` yields `null` when the parameter is absent,
  modelled as `Option String`; the empty string and `null` are both falsy.
* Division of rationals: JavaScript would give `NaN` on a zero denominator
  while `Rat` gives `0`; the development proves the denominator is bounded
  away from zero wherever a division is reached by the scorer.
-/

namespace AgriRisk

/-- The `{location, crop, scenario}` form data consumed by the scorer. -/
structure AssessmentInput where
  location : String
  crop : String
  scenario : String
deriving DecidableEq, Repr

/-- The `feature_contributions` object of the result. -/
structure FeatureContributions where
  location : Rat
  crop : Rat
  scenario : Rat
deriving DecidableEq, Repr

/-- The object returned by `calculateRiskScore`. -/
structure AssessmentResult where
  score : Rat
  reason : String
  feature_contributions : FeatureContributions
deriving DecidableEq, Repr

/-- The `locationRiskMap` object literal (Layout.tsx lines 726-737): exact,
case-sensitive key lookup. -/
def locationRiskMap (key : String) : Option Rat :=
  if key = "Maharashtra" then some (4/10)
  else if key = "Punjab" then some (3/10)
  else if key = "Haryana" then some (35/100)
  else if key = "Uttar Pradesh" then some (45/100)
  else if key = "Karnataka" then some (25/100)
  else if key = "Tamil Nadu" then some (3/10)
  else if key = "Andhra Pradesh" then some (4/10)
  else if key = "Gujarat" then some (5/10)
  else if key = "West Bengal" then some (6/10)
  else if key = "Madhya Pradesh" then some (55/100)
  else none

/-- The `cropRiskMap` object literal (Layout.tsx lines 740-751). -/
def cropRiskMap (key : String) : Option Rat :=
  if key = "Rice" then some (4/10)
  else if key = "Wheat" then some (3/10)
  else if key = "Cotton" then some (6/10)
  else if key = "Sugarcane" then some (35/100)
  else if key = "Maize" then some (25/100)
  else if key = "Pulses" then some (3/10)
  else if key = "Oilseeds" then some (45/100)
  else if key = "Vegetables" then some (5/10)
  else if key = "Fruits" then some (4/10)
  else if key = "Spices" then some (55/100)
  else none

/-- The `scenarioMultipliers` object literal (Layout.tsx lines 754-759). -/
def scenarioMultipliers (key : String) : Option Rat :=
  if key = "normal" then some 1
  else if key = "drought" then some 2
  else if key = "flood" then some (18/10)
  else if key = "pest" then some (16/10)
  else none

/-- The `scenarioRiskFactors` object literal (Layout.tsx lines 762-767). -/
def scenarioRiskFactors (key : String) : Option Rat :=
  if key = "normal" then some (1/10)
  else if key = "drought" then some (5/10)
  else if key = "flood" then some (45/100)
  else if key = "pest" then some (4/10)
  else none

/-- JavaScript `table[key] || d`: the default `d` is taken when the key is
absent (`undefined`) or when the stored number is falsy, i.e. `0`. -/
def jsOrDefault (v : Option Rat) (d : Rat) : Rat :=
  match v with
  | some x => if x = 0 then d else x
  | none => d

/-- Line 771: `const locationRisk = locationRiskMap[location] || 0.4`. -/
def locationRisk (loc : String) : Rat :=
  jsOrDefault (locationRiskMap loc) (4/10)

/-- Line 774: `const cropRisk = cropRiskMap[crop] || 0.4`. -/
def cropRisk (c : String) : Rat :=
  jsOrDefault (cropRiskMap c) (4/10)

/-- Line 777: `const scenarioRiskFactor = scenarioRiskFactors[scenario] || 0.1`. -/
def scenarioRiskFactor (s : String) : Rat :=
  jsOrDefault (scenarioRiskFactors s) (1/10)

/-- Line 780: `const scenarioMultiplier = scenarioMultipliers[scenario] || 1.0`. -/
def scenarioMultiplier (s : String) : Rat :=
  jsOrDefault (scenarioMultipliers s) 1

/-- Line 783: `baseScore = (locationRisk + cropRisk) / 2`. -/
def baseScore (loc c : String) : Rat :=
  (locationRisk loc + cropRisk c) / 2

/-- JavaScript `Math.min` on two (rational-valued) numbers. -/
def mathMin (a b : Rat) : Rat := if a ≤ b then a else b

/-- Line 786: `Math.min((baseScore * scenarioMultiplier) + scenarioRiskFactor, 1.0)`. -/
def finalScore (loc c s : String) : Rat :=
  mathMin (baseScore loc c * scenarioMultiplier s + scenarioRiskFactor s) 1

/-- Line 789: `locationComponent = locationRisk * 0.4`. -/
def locationComponent (loc : String) : Rat := locationRisk loc * (4/10)

/-- Line 790: `cropComponent = cropRisk * 0.4`. -/
def cropComponent (c : String) : Rat := cropRisk c * (4/10)

/-- Line 791: `scenarioComponent = scenarioRiskFactor * 0.2`. -/
def scenarioComponent (s : String) : Rat := scenarioRiskFactor s * (2/10)

/-- Line 794: `totalComponents = locationComponent + cropComponent + scenarioComponent`. -/
def totalComponents (loc c s : String) : Rat :=
  locationComponent loc + cropComponent c + scenarioComponent s

/-- The normalization step (Layout.tsx lines 794-799): each contribution is its
component divided by the total of the three, computed unconditionally — the
source contains no test on the total before dividing. (On a zero total
JavaScript would produce `NaN`; in this `Rat` embedding division by zero gives
`0`. Neither is an even split.) -/
def normalizeContributions (lc cc sc : Rat) : FeatureContributions :=
  { location := lc / (lc + cc + sc)
  , crop := cc / (lc + cc + sc)
  , scenario := sc / (lc + cc + sc) }

/-- The reason branches (Layout.tsx lines 801-809): a template sentence chosen
by comparing the final score against 0.3 and 0.7. -/
def reasonFor (score : Rat) (crop loc scen : String) : String :=
  if score < 3/10 then
    "Low risk detected for " ++ crop ++ " cultivation in " ++ loc ++
      " under " ++ scen ++ " conditions."
  else if score < 7/10 then
    "Moderate risk detected for " ++ crop ++ " cultivation in " ++ loc ++
      " under " ++ scen ++ " conditions."
  else
    "High risk detected for " ++ crop ++ " cultivation in " ++ loc ++
      " under " ++ scen ++ " conditions."

/-- The `calculateRiskScore` function from Layout.tsx (lines 718-820): score,
reason and normalized feature contributions, all computed from the form data
alone. -/
def calculateRiskScore (formData : AssessmentInput) : AssessmentResult :=
  { score := finalScore formData.location formData.crop formData.scenario
  , reason := reasonFor (finalScore formData.location formData.crop formData.scenario)
      formData.crop formData.location formData.scenario
  , feature_contributions := normalizeContributions
      (locationComponent formData.location)
      (cropComponent formData.crop)
      (scenarioComponent formData.scenario) }

/-- Scenario resolution of the App-component variant (`src/unnamed/part_000`,
lines 111-136): `scenarioValue` starts as `"normal"`; a truthy URL `scenario`
query parameter replaces it, otherwise a truthy non-`"normal"` form scenario
does; finally a truthy non-`"normal"` form scenario overrides unconditionally.
`urlScenario = none` models an absent parameter (`null`). -/
def resolveScenarioValue (formScenario : String) (urlScenario : Option String) : String :=
  let fromUrl :=
    match urlScenario with
    | some u =>
        if u ≠ "" then u
        else if formScenario ≠ "" ∧ formScenario ≠ "normal" then formScenario
        else "normal"
    | none =>
        if formScenario ≠ "" ∧ formScenario ≠ "normal" then formScenario
        else "normal"
  if formScenario ≠ "" ∧ formScenario ≠ "normal" then formScenario else fromUrl

/-- The `calculateRiskScore` variant of the App component (`src/unnamed/part_000`,
lines 78-210): same tables and formula as the Layout.tsx version, but the
scenario used for the multiplier, the direct risk factor and the scenario
component is `scenarioValue`, resolved from the form data AND the URL query
string; the reason template interpolates `formData.scenario` itself. -/
def calculateRiskScoreApp (formData : AssessmentInput)
    (urlScenario : Option String) : AssessmentResult :=
  let sv := resolveScenarioValue formData.scenario urlScenario
  { score := finalScore formData.location formData.crop sv
  , reason := reasonFor (finalScore formData.location formData.crop sv)
      formData.crop formData.location formData.scenario
  , feature_contributions := normalizeContributions
      (locationComponent formData.location)
      (cropComponent formData.crop)
      (scenarioComponent sv) }

/-- The reference score formula as the spec states it (spec §4.2 steps 1-5):
stored table weight when the key is present, otherwise the documented fallback
(0.4 for location and crop, multiplier 1.0 and direct risk 0.1 for the
scenario), then `min(baseScore * multiplier + direct, 1)`. -/
def specRiskScore (i : AssessmentInput) : Rat :=
  let locationWeight := (locationRiskMap i.location).getD (4/10)
  let cropWeight := (cropRiskMap i.crop).getD (4/10)
  let mult := (scenarioMultipliers i.scenario).getD 1
  let direct := (scenarioRiskFactors i.scenario).getD (1/10)
  mathMin ((locationWeight + cropWeight) / 2 * mult + direct) 1

/-- The qualitative band the spec derives from the final score (§4.2 step 9). -/
def bandOf (score : Rat) : String :=
  if score < 3/10 then "Low" else if score < 7/10 then "Moderate" else "High"

/-! ## Helper lemmas: lookups, bounds, strings -/

theorem mathMin_eq_min (a b : Rat) : mathMin a b = min a b := (min_def a b).symm

theorem locationRisk_eq_getD (loc : String) :
    locationRisk loc = (locationRiskMap loc).getD (4/10) := by
  unfold locationRisk locationRiskMap
  split_ifs <;> norm_num [jsOrDefault]

theorem cropRisk_eq_getD (c : String) :
    cropRisk c = (cropRiskMap c).getD (4/10) := by
  unfold cropRisk cropRiskMap
  split_ifs <;> norm_num [jsOrDefault]

theorem scenarioMultiplier_eq_getD (s : String) :
    scenarioMultiplier s = (scenarioMultipliers s).getD 1 := by
  unfold scenarioMultiplier scenarioMultipliers
  split_ifs <;> norm_num [jsOrDefault]

theorem scenarioRiskFactor_eq_getD (s : String) :
    scenarioRiskFactor s = (scenarioRiskFactors s).getD (1/10) := by
  unfold scenarioRiskFactor scenarioRiskFactors
  split_ifs <;> norm_num [jsOrDefault]

theorem locationRisk_lb (loc : String) : (1/4 : Rat) ≤ locationRisk loc := by
  unfold locationRisk locationRiskMap
  split_ifs <;> norm_num [jsOrDefault]

theorem cropRisk_lb (c : String) : (1/4 : Rat) ≤ cropRisk c := by
  unfold cropRisk cropRiskMap
  split_ifs <;> norm_num [jsOrDefault]

theorem scenarioMultiplier_lb (s : String) : (1 : Rat) ≤ scenarioMultiplier s := by
  unfold scenarioMultiplier scenarioMultipliers
  split_ifs <;> norm_num [jsOrDefault]

theorem scenarioRiskFactor_lb (s : String) : (1/10 : Rat) ≤ scenarioRiskFactor s := by
  unfold scenarioRiskFactor scenarioRiskFactors
  split_ifs <;> norm_num [jsOrDefault]

theorem baseScore_lb (loc c : String) : (1/4 : Rat) ≤ baseScore loc c := by
  have h1 := locationRisk_lb loc
  have h2 := cropRisk_lb c
  unfold baseScore
  linarith

/-- The uncapped score is at least 0.35 = 0.25 * 1.0 + 0.1. -/
theorem rawScore_lb (loc c s : String) :
    (7/20 : Rat) ≤ baseScore loc c * scenarioMultiplier s + scenarioRiskFactor s := by
  have hb := baseScore_lb loc c
  have hm := scenarioMultiplier_lb s
  have hd := scenarioRiskFactor_lb s
  nlinarith [hb, hm, hd]

theorem finalScore_lb (loc c s : String) : (7/20 : Rat) ≤ finalScore loc c s := by
  unfold finalScore
  rw [mathMin_eq_min]
  exact le_min (rawScore_lb loc c s) (by norm_num)

theorem finalScore_ub (loc c s : String) : finalScore loc c s ≤ 1 := by
  unfold finalScore
  rw [mathMin_eq_min]
  exact min_le_right _ _

theorem totalComponents_lb (loc c s : String) :
    (11/50 : Rat) ≤ totalComponents loc c s := by
  have h1 := locationRisk_lb loc
  have h2 := cropRisk_lb c
  have h3 := scenarioRiskFactor_lb s
  unfold totalComponents locationComponent cropComponent scenarioComponent
  linarith

theorem totalComponents_ne_zero (loc c s : String) :
    locationComponent loc + cropComponent c + scenarioComponent s ≠ 0 := by
  have h := totalComponents_lb loc c s
  unfold totalComponents at h
  intro hz
  rw [hz] at h
  norm_num at h

theorem strAppend_assoc (a b c : String) : a ++ b ++ c = a ++ (b ++ c) :=
  String.ext (by simp [List.append_assoc])

theorem head_of_append {c : Char} (a b : String) (h : a.data.head? = some c) :
    (a ++ b).data.head? = some c := by
  rw [String.data_append]
  cases ha : a.data with
  | nil => rw [ha] at h; simp at h
  | cons x xs =>
      rw [ha] at h
      simp only [List.head?_cons, Option.some.injEq] at h
      rw [List.cons_append]
      simp [h]

/-! ## The claims -/

/-- C1: for every input, the score returned by `calculateRiskScore` equals the
spec's reference formula: the average of the location and crop table weights
(fallback 0.4 each) times the scenario multiplier plus the scenario direct
risk, capped at 1, with profiles normal (1.0, 0.1), drought (2.0, 0.5),
flood (1.8, 0.45), pest (1.6, 0.4) and fallback (1.0, 0.1). -/
theorem c1_score_matches_reference (i : AssessmentInput) :
    (calculateRiskScore i).score = specRiskScore i := by
  simp only [calculateRiskScore, specRiskScore, finalScore, baseScore]
  rw [locationRisk_eq_getD, cropRisk_eq_getD, scenarioMultiplier_eq_getD,
    scenarioRiskFactor_eq_getD]

/-- C2: for every input triple, the returned score lies in [0, 1]. -/
theorem c2_score_bounded (i : AssessmentInput) :
    0 ≤ (calculateRiskScore i).score ∧ (calculateRiskScore i).score ≤ 1 := by
  constructor
  · have h := finalScore_lb i.location i.crop i.scenario
    show (0 : Rat) ≤ finalScore i.location i.crop i.scenario
    linarith
  · exact finalScore_ub i.location i.crop i.scenario

/-- C3: for every input, the three returned contribution values sum to exactly
1 in rational arithmetic. -/
theorem c3_contributions_sum_to_one (i : AssessmentInput) :
    (calculateRiskScore i).feature_contributions.location +
      (calculateRiskScore i).feature_contributions.crop +
      (calculateRiskScore i).feature_contributions.scenario = 1 := by
  show locationComponent i.location /
        (locationComponent i.location + cropComponent i.crop + scenarioComponent i.scenario) +
      cropComponent i.crop /
        (locationComponent i.location + cropComponent i.crop + scenarioComponent i.scenario) +
      scenarioComponent i.scenario /
        (locationComponent i.location + cropComponent i.crop + scenarioComponent i.scenario) = 1
  rw [div_add_div_same, div_add_div_same]
  exact div_self (totalComponents_ne_zero i.location i.crop i.scenario)

/-- C4 counterexample: the normalization step of the source divides
unconditionally; applied to components whose total is zero it does not return
an even split of 1/3 each, so the division-by-zero case is not guarded. -/
theorem c4_counterexample :
    normalizeContributions 0 0 0 ≠ ⟨1/3, 1/3, 1/3⟩ := by
  intro h
  have hl := congrArg FeatureContributions.location h
  norm_num [normalizeContributions] at hl

/-- C4 amended: no guard is needed — for every input the total of the three
unnormalized components is at least 0.22, so the normalization never divides
by zero. -/
theorem c4_total_bounded_away_from_zero (i : AssessmentInput) :
    (11/50 : Rat) ≤ totalComponents i.location i.crop i.scenario :=
  totalComponents_lb i.location i.crop i.scenario

/-- C5 counterexample: the App-component variant of `calculateRiskScore`
(`src/unnamed/part_000`) is not a function of the form data alone — on the
identical form data {Punjab, Wheat, normal} its output differs between a URL
carrying `scenario=drought` and a URL without the parameter. -/
theorem c5_counterexample :
    calculateRiskScoreApp ⟨"Punjab", "Wheat", "normal"⟩ (some "drought") ≠
      calculateRiskScoreApp ⟨"Punjab", "Wheat", "normal"⟩ none := by
  intro h
  have hs := congrArg AssessmentResult.score h
  have e1 : (calculateRiskScoreApp ⟨"Punjab", "Wheat", "normal"⟩ (some "drought")).score =
      finalScore "Punjab" "Wheat" "drought" := rfl
  have e2 : (calculateRiskScoreApp ⟨"Punjab", "Wheat", "normal"⟩ none).score =
      finalScore "Punjab" "Wheat" "normal" := rfl
  rw [e1, e2] at hs
  have v1 : finalScore "Punjab" "Wheat" "drought" = 1 := by
    unfold finalScore baseScore
    rw [locationRisk_eq_getD, cropRisk_eq_getD, scenarioMultiplier_eq_getD,
      scenarioRiskFactor_eq_getD]
    norm_num [show locationRiskMap "Punjab" = some (3/10) from rfl,
      show cropRiskMap "Wheat" = some (3/10) from rfl,
      show scenarioMultipliers "drought" = some 2 from rfl,
      show scenarioRiskFactors "drought" = some (5/10) from rfl, mathMin]
  have v2 : finalScore "Punjab" "Wheat" "normal" = 4/10 := by
    unfold finalScore baseScore
    rw [locationRisk_eq_getD, cropRisk_eq_getD, scenarioMultiplier_eq_getD,
      scenarioRiskFactor_eq_getD]
    norm_num [show locationRiskMap "Punjab" = some (3/10) from rfl,
      show cropRiskMap "Wheat" = some (3/10) from rfl,
      show scenarioMultipliers "normal" = some 1 from rfl,
      show scenarioRiskFactors "normal" = some (1/10) from rfl, mathMin]
  rw [v1, v2] at hs
  norm_num at hs

/-- C5 amended: the Layout.tsx scorer reads nothing but its form-data argument;
the App-component variant also reads the URL query string, but its URL
dependence disappears exactly when the form supplies a nonempty scenario other
than "normal" — then any two URL states give identical output. -/
theorem c5_url_ignored_for_explicit_scenario (fd : AssessmentInput)
    (u1 u2 : Option String) (h1 : fd.scenario ≠ "") (h2 : fd.scenario ≠ "normal") :
    calculateRiskScoreApp fd u1 = calculateRiskScoreApp fd u2 := by
  have hr : ∀ u, resolveScenarioValue fd.scenario u = fd.scenario := by
    intro u
    unfold resolveScenarioValue
    simp [h1, h2]
  simp only [calculateRiskScoreApp]
  rw [hr u1, hr u2]

/-- C5 witness: with the form scenario explicitly "drought", the URL parameter
makes no difference in the App-component variant. -/
theorem c5_witness :
    calculateRiskScoreApp ⟨"Punjab", "Wheat", "drought"⟩ (some "flood") =
      calculateRiskScoreApp ⟨"Punjab", "Wheat", "drought"⟩ none :=
  c5_url_ignored_for_explicit_scenario ⟨"Punjab", "Wheat", "drought"⟩
    (some "flood") none (by decide) (by decide)

/-- C6: a key absent from its table resolves to the documented fallback —
location 0.4, crop 0.4, scenario multiplier 1.0 and direct risk 0.1; the
lookup (and hence the total scorer) never fails. -/
theorem c6_fallback_on_missing_key (key : String) :
    (locationRiskMap key = none → locationRisk key = 4/10) ∧
    (cropRiskMap key = none → cropRisk key = 4/10) ∧
    (scenarioMultipliers key = none → scenarioMultiplier key = 1) ∧
    (scenarioRiskFactors key = none → scenarioRiskFactor key = 1/10) := by
  refine ⟨fun h => ?_, fun h => ?_, fun h => ?_, fun h => ?_⟩
  · rw [locationRisk_eq_getD, h]; rfl
  · rw [cropRisk_eq_getD, h]; rfl
  · rw [scenarioMultiplier_eq_getD, h]; rfl
  · rw [scenarioRiskFactor_eq_getD, h]; rfl

/-- C6 witness: the empty string is in none of the tables and resolves to the
fallbacks. -/
theorem c6_witness :
    locationRisk "" = 4/10 ∧ cropRisk "" = 4/10 ∧
    scenarioMultiplier "" = 1 ∧ scenarioRiskFactor "" = 1/10 :=
  ⟨(c6_fallback_on_missing_key "").1 rfl, (c6_fallback_on_missing_key "").2.1 rfl,
    (c6_fallback_on_missing_key "").2.2.1 rfl, (c6_fallback_on_missing_key "").2.2.2 rfl⟩

/-- C7: the reason string is always the templated sentence whose band is "Low"
below 0.3, "Moderate" below 0.7 and "High" otherwise. -/
theorem c7_reason_is_band_template (i : AssessmentInput) :
    (calculateRiskScore i).reason =
      bandOf (calculateRiskScore i).score ++ " risk detected for " ++ i.crop ++
        " cultivation in " ++ i.location ++ " under " ++ i.scenario ++ " conditions." := by
  show reasonFor (finalScore i.location i.crop i.scenario) i.crop i.location i.scenario =
    bandOf (finalScore i.location i.crop i.scenario) ++ " risk detected for " ++ i.crop ++
      " cultivation in " ++ i.location ++ " under " ++ i.scenario ++ " conditions."
  unfold reasonFor bandOf
  split_ifs <;> rfl

/-- C8: with location and crop fixed, a scenario whose multiplier and direct
risk are both at least those of another never yields a smaller score. -/
theorem c8_scenario_monotone (loc c s1 s2 : String)
    (hm : scenarioMultiplier s1 ≤ scenarioMultiplier s2)
    (hd : scenarioRiskFactor s1 ≤ scenarioRiskFactor s2) :
    (calculateRiskScore ⟨loc, c, s1⟩).score ≤ (calculateRiskScore ⟨loc, c, s2⟩).score := by
  show finalScore loc c s1 ≤ finalScore loc c s2
  unfold finalScore
  rw [mathMin_eq_min, mathMin_eq_min]
  refine min_le_min ?_ le_rfl
  have hmul : baseScore loc c * scenarioMultiplier s1 ≤ baseScore loc c * scenarioMultiplier s2 :=
    mul_le_mul_of_nonneg_left hm (by linarith [baseScore_lb loc c])
  linarith

/-- C8 witness: normal is pointwise below drought and the score follows. -/
theorem c8_witness :
    (calculateRiskScore ⟨"Punjab", "Wheat", "normal"⟩).score ≤
      (calculateRiskScore ⟨"Punjab", "Wheat", "drought"⟩).score := by
  have hm : scenarioMultiplier "normal" ≤ scenarioMultiplier "drought" := by
    rw [scenarioMultiplier_eq_getD, scenarioMultiplier_eq_getD]
    norm_num [show scenarioMultipliers "normal" = some 1 from rfl,
      show scenarioMultipliers "drought" = some 2 from rfl]
  have hd : scenarioRiskFactor "normal" ≤ scenarioRiskFactor "drought" := by
    rw [scenarioRiskFactor_eq_getD, scenarioRiskFactor_eq_getD]
    norm_num [show scenarioRiskFactors "normal" = some (1/10) from rfl,
      show scenarioRiskFactors "drought" = some (5/10) from rfl]
  exact c8_scenario_monotone "Punjab" "Wheat" "normal" "drought" hm hd

/-- C9: every score is at least 0.35, so the "Low" band is unreachable — no
reason string ever begins with "Low". -/
theorem c9_low_band_unreachable (i : AssessmentInput) :
    (7/20 : Rat) ≤ (calculateRiskScore i).score ∧
    ∀ rest : String, (calculateRiskScore i).reason ≠ "Low" ++ rest := by
  have hs : (7/20 : Rat) ≤ finalScore i.location i.crop i.scenario :=
    finalScore_lb i.location i.crop i.scenario
  refine ⟨hs, ?_⟩
  intro rest hcontra
  have hshape : (calculateRiskScore i).reason =
      reasonFor (finalScore i.location i.crop i.scenario) i.crop i.location i.scenario := rfl
  rw [hshape] at hcontra
  unfold reasonFor at hcontra
  rw [if_neg (by push_neg; linarith)] at hcontra
  have hL : (("Low" : String) ++ rest).data.head? = some 'L' :=
    head_of_append _ _ rfl
  by_cases h7 : finalScore i.location i.crop i.scenario < 7/10
  · rw [if_pos h7] at hcontra
    have hM : (("Moderate risk detected for " ++ i.crop ++ " cultivation in " ++ i.location ++
        " under " ++ i.scenario ++ " conditions.")).data.head? = some 'M' :=
      head_of_append _ _ (head_of_append _ _ (head_of_append _ _ (head_of_append _ _
        (head_of_append _ _ (head_of_append _ _ rfl)))))
    rw [hcontra, hL] at hM
    exact absurd hM (by decide)
  · rw [if_neg h7] at hcontra
    have hH : (("High risk detected for " ++ i.crop ++ " cultivation in " ++ i.location ++
        " under " ++ i.scenario ++ " conditions.")).data.head? = some 'H' :=
      head_of_append _ _ (head_of_append _ _ (head_of_append _ _ (head_of_append _ _
        (head_of_append _ _ (head_of_append _ _ rfl)))))
    rw [hcontra, hL] at hH
    exact absurd hH (by decide)

/-- C9 witness: a concrete instance of the bound and of the non-"Low" prefix. -/
theorem c9_witness :
    (7/20 : Rat) ≤ (calculateRiskScore ⟨"Punjab", "Wheat", "normal"⟩).score ∧
    (calculateRiskScore ⟨"Punjab", "Wheat", "normal"⟩).reason ≠ "Low" ++ "" :=
  ⟨(c9_low_band_unreachable ⟨"Punjab", "Wheat", "normal"⟩).1,
    (c9_low_band_unreachable ⟨"Punjab", "Wheat", "normal"⟩).2 ""⟩

/-- C10: with scenario "drought" the cap always binds — the score is exactly 1
for every location and crop, and the band is "High". -/
theorem c10_drought_always_capped (loc c : String) :
    (calculateRiskScore ⟨loc, c, "drought"⟩).score = 1 ∧
    (calculateRiskScore ⟨loc, c, "drought"⟩).reason =
      "High risk detected for " ++ c ++ " cultivation in " ++ loc ++
        " under drought conditions." := by
  have hmult : scenarioMultiplier "drought" = 2 := by
    rw [scenarioMultiplier_eq_getD]
    norm_num [show scenarioMultipliers "drought" = some 2 from rfl]
  have hdir : scenarioRiskFactor "drought" = 5/10 := by
    rw [scenarioRiskFactor_eq_getD]
    norm_num [show scenarioRiskFactors "drought" = some (5/10) from rfl]
  have hb := baseScore_lb loc c
  have hscore : finalScore loc c "drought" = 1 := by
    unfold finalScore
    rw [hmult, hdir, mathMin_eq_min]
    exact min_eq_right (by linarith)
  refine ⟨hscore, ?_⟩
  show reasonFor (finalScore loc c "drought") c loc "drought" = _
  rw [hscore]
  unfold reasonFor
  rw [if_neg (by norm_num), if_neg (by norm_num)]
  simp only [strAppend_assoc]
  rfl

end AgriRisk
